import Mathlib

/-!
Verification of the zeph-http request pipeline (packages/zeph-http).

The definitions below are a shallow embedding of the TypeScript sources:
the request execution pipeline of createZephClient (validation, request
interceptors, misuse guards, retry loop, decoding, optional response-schema
validation, response interceptors), together with the helper modules
(core/utils/guards.ts, core/utils/interceptorError.ts, core/utils/headers.ts,
core/utils/url.ts, core/schemas/http.ts, core/types/error.ts).

External collaborators (the fetch transport, timers, AbortController events,
the zod engine, JSON/URL encoding) are modelled as inputs: each attempt's
transport behaviour is supplied by an environment function, and signal state
is supplied as boolean observations, exactly the observables the code reads.
-/

namespace Zeph

/-- JS runtime values as far as the pipeline inspects them (strings, numbers,
booleans, arrays, plain objects, null). FormData/Blob bodies of the browser
runtime are outside the model. -/
inductive Val where
  | null
  | str (s : String)
  | num (n : Int)
  | bool (b : Bool)
  | arr (xs : List Val)
  | obj (fields : List (String × Val))

/-- Non-ZephHttpError JS errors that can be thrown at the pipeline:
fetch network failures (TypeError), aborts (name "AbortError"), JSON decode
errors (SyntaxError), and anything else. -/
inductive JsErr where
  | typeError (msg : String)
  | abortError
  | jsonSyntaxError (msg : String)
  | generic (msg : String)
deriving DecidableEq

def JsErr.message : JsErr → String
  | .typeError m => m
  | .abortError => "The operation was aborted."
  | .jsonSyntaxError m => m
  | .generic m => m

def JsErr.name : JsErr → String
  | .typeError _ => "TypeError"
  | .abortError => "AbortError"
  | .jsonSyntaxError _ => "SyntaxError"
  | .generic _ => "Error"

/-- ZephResponseType (core/types/http.ts). -/
inductive RType where
  | json
  | text
  | blob
  | arrayBuffer
deriving DecidableEq

def RType.toTag : RType → String
  | .json => "json"
  | .text => "text"
  | .blob => "blob"
  | .arrayBuffer => "arrayBuffer"

/-- Which interceptor stage an error came from ("request" | "response"). -/
inductive Stage where
  | request
  | response
deriving DecidableEq

def Stage.toTag : Stage → String
  | .request => "request"
  | .response => "response"

/-- A zod issue as consumed by formatZodIssues (path, message, code, and the
expected-type hint when present). -/
structure Issue where
  path : List String
  message : String
  code : String
  expected : Option String := none
deriving DecidableEq

/-- The kinds of values the code stores in a ZephHttpError's data field:
zod issue lists (EVALIDATION, EZODRESPONSE), the raw-text re-read
(EJSONPARSE), or a decoded body (EHTTP). -/
inductive ErrData where
  | issues (xs : List Issue)
  | text (s : String)
  | val (v : Val)

/-- Function-free snapshot of the request config attached to errors
(the data fields of ZephRequestConfig / NormalizedZephRequestConfig). -/
structure ReqSnap where
  baseURL : Option String := none
  path : Option Val := none
  method : Option Val := none
  headers : Option (List (String × Val)) := none
  params : Option (List (String × Val)) := none
  body : Option Val := none
  timeoutMs : Option Val := none
  retry : Option Nat := none
  responseType : Option Val := none

/-- A thrown JS value as the pipeline sees it: either a ZephHttpError
(core/types/error.ts, with its optional fields) or a plain JS error.
The zeph constructor's arguments are, in order: message, status, data,
headers, request, cause, interceptorType, interceptorIndex, code. -/
inductive Thrown where
  | js (e : JsErr)
  | zeph (message : String) (status : Option Nat) (data : Option ErrData)
      (headers : Option (List (String × String))) (request : Option ReqSnap)
      (cause : Option Thrown) (interceptorType : Option Stage)
      (interceptorIndex : Option Nat) (code : Option String)

def Thrown.code : Thrown → Option String
  | .js _ => none
  | .zeph _ _ _ _ _ _ _ _ c => c

def Thrown.status : Thrown → Option Nat
  | .js _ => none
  | .zeph _ s _ _ _ _ _ _ _ => s

def Thrown.data : Thrown → Option ErrData
  | .js _ => none
  | .zeph _ _ d _ _ _ _ _ _ => d

def Thrown.headers : Thrown → Option (List (String × String))
  | .js _ => none
  | .zeph _ _ _ h _ _ _ _ _ => h

def Thrown.request : Thrown → Option ReqSnap
  | .js _ => none
  | .zeph _ _ _ _ r _ _ _ _ => r

def Thrown.cause : Thrown → Option Thrown
  | .js _ => none
  | .zeph _ _ _ _ _ c _ _ _ => c

def Thrown.interceptorType : Thrown → Option Stage
  | .js _ => none
  | .zeph _ _ _ _ _ _ t _ _ => t

def Thrown.interceptorIndex : Thrown → Option Nat
  | .js _ => none
  | .zeph _ _ _ _ _ _ _ i _ => i

def Thrown.message : Thrown → String
  | .js e => e.message
  | .zeph m _ _ _ _ _ _ _ _ => m

/-- The error's name property: ZephHttpError sets name = "ZephHttpError". -/
def Thrown.errName : Thrown → String
  | .js e => e.name
  | .zeph _ _ _ _ _ _ _ _ _ => "ZephHttpError"

/-- Models the instanceof ZephHttpError test (isZephHttpError is always true
on instances of the class). -/
def Thrown.isZephHttpError : Thrown → Bool
  | .js _ => false
  | .zeph _ _ _ _ _ _ _ _ _ => true

/-- The options bag of the ZephHttpError constructor; absent fields stay
undefined. -/
structure ErrOpts where
  status : Option Nat := none
  data : Option ErrData := none
  headers : Option (List (String × String)) := none
  request : Option ReqSnap := none
  cause : Option Thrown := none
  interceptorType : Option Stage := none
  interceptorIndex : Option Nat := none
  code : Option String := none

/-- new ZephHttpError(message, options) from core/types/error.ts. -/
def mkZephHttpError (message : String) (opts : ErrOpts) : Thrown :=
  .zeph message opts.status opts.data opts.headers opts.request opts.cause
    opts.interceptorType opts.interceptorIndex opts.code

/-- An AbortSignal's observable abort state, sampled at the pre-attempt
check of each attempt (attempt index → aborted). Timer/event mechanics are
external. -/
def Signal := Nat → Bool

/-- retryDelay: a fixed duration in ms, or a function (attempt, error) => ms. -/
inductive RetryDelay where
  | fixed (ms : Int)
  | fn (f : Nat → Thrown → Int)

/-- The delayMs computation of the retry branch (typeof function → call with
(attempt + 1, err); typeof number → the fixed value; otherwise 0). -/
def computeDelay (d : Option RetryDelay) (attempt : Nat) (err : Thrown) : Int :=
  match d with
  | some (.fn f) => f attempt err
  | some (.fixed ms) => ms
  | none => 0

/-- Result of a zod schema's safeParse on the response data. -/
inductive SchemaResult where
  | success (data : Val)
  | failure (issues : List Issue)

/-- A response-validation capability (responseSchema.safeParse). -/
def SchemaFn := Val → SchemaResult

/-- ZephResponse (core/types/http.ts): decoded data, status, header record. -/
structure ZephResponse where
  data : Val
  status : Nat
  headers : List (String × String)

/-- NormalizedZephRequestConfig: the merged per-request view threaded through
request interceptors and the pipeline. -/
structure NormConfig where
  baseURL : Option String := none
  path : String
  method : Option String := none
  headers : List (String × Val) := []
  params : Option (List (String × Val)) := none
  body : Option Val := none
  timeoutMs : Option Int := none
  signal : Option Signal := none
  retry : Option Nat := none
  retryDelay : Option RetryDelay := none
  responseType : Option RType := none
  responseSchema : Option SchemaFn := none

def snapOfNorm (c : NormConfig) : ReqSnap :=
  { baseURL := c.baseURL
  , path := some (.str c.path)
  , method := c.method.map .str
  , headers := some c.headers
  , params := c.params
  , body := c.body
  , timeoutMs := c.timeoutMs.map .num
  , retry := c.retry
  , responseType := c.responseType.map (fun rt => .str rt.toTag) }

/-- A request interceptor (config → config, may throw). -/
def ReqInterceptor := NormConfig → Except Thrown NormConfig

/-- A response success interceptor (response → response, may throw). The
onError handlers registered alongside are never invoked by this version of
request, so only the onSuccess chain is modelled. -/
def RespInterceptor := ZephResponse → Except Thrown ZephResponse

/-- The interceptor registry (core/interceptors/index.ts): two append-only
ordered lists. -/
structure Interceptors where
  request : List ReqInterceptor := []
  response : List RespInterceptor := []

/-- The raw per-request configuration as submitted by the caller. The fields
checked by ZephRequestConfigSchema (path, method, headers, params,
responseType, timeoutMs) carry arbitrary runtime values; the rest are typed. -/
structure RawConfig where
  path : Option Val := none
  method : Option Val := none
  headers : Option (List (String × Val)) := none
  params : Option (List (String × Val)) := none
  body : Option Val := none
  responseType : Option Val := none
  timeoutMs : Option Val := none
  signal : Option Signal := none
  retry : Option Nat := none
  retryDelay : Option RetryDelay := none
  baseURL : Option String := none
  responseSchema : Option SchemaFn := none

def snapOfRaw (c : RawConfig) : ReqSnap :=
  { baseURL := c.baseURL
  , path := c.path
  , method := c.method
  , headers := c.headers
  , params := c.params
  , body := c.body
  , timeoutMs := c.timeoutMs
  , retry := c.retry
  , responseType := c.responseType }

/-- Modelled from the spec: ZephClientConfig (core/types/client.ts is not
among the sources; only its uses are). Client-level defaults carrying the
same optional fields as a request description minus the per-request-only
ones; the normalized description merges them under the per-request values. -/
structure ClientConfig where
  baseURL : Option String := none
  method : Option String := none
  headers : Option (List (String × Val)) := none
  params : Option (List (String × Val)) := none
  body : Option Val := none
  timeoutMs : Option Int := none
  retry : Option Nat := none
  retryDelay : Option RetryDelay := none
  responseType : Option RType := none

/-- The typed projection of a raw config that passed ZephRequestConfigSchema. -/
structure Parsed where
  path : String
  method : Option String := none
  timeoutMs : Option Int := none
  responseType : Option RType := none

def methodEnum : List String :=
  ["GET", "POST", "PUT", "DELETE", "PATCH", "OPTIONS", "HEAD"]

def methodEnumMessage : String :=
  "Request method must be GET | POST | PUT | DELETE | PATCH | OPTIONS | HEAD"

def pathMessage : String :=
  "Request config must include a valid 'path' string."

/-- QueryParamValue (core/schemas/http.ts): string | number | boolean |
string[] | number[] | boolean[]. -/
def isQueryParamValue : Val → Bool
  | .str _ => true
  | .num _ => true
  | .bool _ => true
  | .arr xs =>
      xs.all (fun x => match x with | .str _ => true | _ => false) ||
      xs.all (fun x => match x with | .num _ => true | _ => false) ||
      xs.all (fun x => match x with | .bool _ => true | _ => false)
  | _ => false

def pathIssues : Option Val → List Issue
  | some (.str s) =>
      if 1 ≤ s.length then []
      else [{ path := ["path"], message := pathMessage, code := "too_small" }]
  | _ => [{ path := ["path"], message := pathMessage, code := "invalid_type",
            expected := some "string" }]

def methodIssues : Option Val → List Issue
  | none => []
  | some (.str s) =>
      if methodEnum.contains s then []
      else [{ path := ["method"], message := methodEnumMessage, code := "invalid_value" }]
  | some _ => [{ path := ["method"], message := methodEnumMessage, code := "invalid_value" }]

def headerIssues : Option (List (String × Val)) → List Issue
  | none => []
  | some hs => hs.filterMap fun kv =>
      match kv.2 with
      | .str _ => none
      | _ => some { path := ["headers", kv.1], message := "Invalid input: expected string",
                    code := "invalid_type", expected := some "string" }

def paramIssues : Option (List (String × Val)) → List Issue
  | none => []
  | some ps => ps.filterMap fun kv =>
      if isQueryParamValue kv.2 then none
      else some { path := ["params", kv.1], message := "Invalid input", code := "invalid_union" }

def responseTypeEnum : List String := ["json", "text", "blob", "arrayBuffer"]

def responseTypeIssues : Option Val → List Issue
  | none => []
  | some (.str s) =>
      if responseTypeEnum.contains s then []
      else [{ path := ["responseType"], message := "Invalid option", code := "invalid_value" }]
  | some _ => [{ path := ["responseType"], message := "Invalid option", code := "invalid_value" }]

def timeoutMessage : String := "timeoutMs must be a positive integer"

def timeoutIssues : Option Val → List Issue
  | none => []
  | some (.num n) =>
      if 0 < n then []
      else [{ path := ["timeoutMs"], message := timeoutMessage, code := "too_small" }]
  | some _ => [{ path := ["timeoutMs"], message := "Invalid input: expected number",
                 code := "invalid_type", expected := some "number" }]

def rtypeOfTag (s : String) : Option RType :=
  if s == "json" then some .json
  else if s == "text" then some .text
  else if s == "blob" then some .blob
  else if s == "arrayBuffer" then some .arrayBuffer
  else none

/-- ZephRequestConfigSchema.safeParse: the structural contract of
core/schemas/http.ts (required non-empty path string; method and
responseType restricted to their enumerations when present; headers a
string record; params QueryParamValues; timeoutMs a positive integer).
The zod engine itself is an external collaborator; issues are produced
per schema field in declaration order. -/
def safeParse (c : RawConfig) : Except (List Issue) Parsed :=
  let issues :=
    pathIssues c.path ++ methodIssues c.method ++ headerIssues c.headers ++
    paramIssues c.params ++ responseTypeIssues c.responseType ++ timeoutIssues c.timeoutMs
  if issues.isEmpty then
    .ok { path := (match c.path with | some (.str s) => s | _ => "")
        , method := (match c.method with | some (.str s) => some s | _ => none)
        , timeoutMs := (match c.timeoutMs with | some (.num n) => some n | _ => none)
        , responseType := (match c.responseType with | some (.str s) => rtypeOfTag s | _ => none) }
  else .error issues

/-- formatZodIssues (core/utils/zod.ts). -/
def formatZodIssue (idx : Nat) (issue : Issue) : String :=
  let path := if issue.path.isEmpty then "(root)" else String.intercalate "." issue.path
  let msg := (if idx < 1 then "Invalidity Ocurred => \n" else "") ++
    " • \"" ++ path ++ "\" is invalid: " ++ issue.message
  let msg :=
    match issue.expected with
    | some e => if issue.code == "invalid_type" then msg ++ " (expected type: " ++ e ++ ")" else msg
    | none => msg
  if issue.code == "invalid_union" then
    msg ++ " (value does not match any allowed types, e.g., string, number, boolean, or array of these)"
  else msg

def formatZodIssues (issues : List Issue) : String :=
  if issues.isEmpty then "Unknown validation error."
  else String.intercalate "\n" (issues.enum.map fun p => formatZodIssue p.1 p.2)

/-- wrapInterceptorError (core/utils/interceptorError.ts): a ZephHttpError is
annotated in place with the stage and index and a message prefix; any other
thrown value is wrapped in a fresh ZephHttpError with the original as cause.
Neither branch sets a code or attaches the request config. -/
def wrapInterceptorError (err : Thrown) (interceptorType : Stage) (index : Nat) : Thrown :=
  match err with
  | .zeph msg st da hd rq ca _ _ cd =>
      .zeph ("[" ++ interceptorType.toTag ++ " interceptor #" ++ toString index ++ "] " ++ msg)
        st da hd rq ca (some interceptorType) (some index) cd
  | .js e =>
      .zeph ("[" ++ interceptorType.toTag ++ " interceptor #" ++ toString index ++ "] " ++ e.message)
        none none none none (some (.js e)) (some interceptorType) (some index) none

/-- JS loose body != null (excludes both undefined and null). -/
def jsNonNull : Option Val → Bool
  | none => false
  | some .null => false
  | some _ => true

/-- String.prototype.toUpperCase restricted to ASCII letters, the alphabet
of HTTP method names. -/
def charUpper (c : Char) : Char :=
  match c with
  | 'a' => 'A' | 'b' => 'B' | 'c' => 'C' | 'd' => 'D' | 'e' => 'E' | 'f' => 'F'
  | 'g' => 'G' | 'h' => 'H' | 'i' => 'I' | 'j' => 'J' | 'k' => 'K' | 'l' => 'L'
  | 'm' => 'M' | 'n' => 'N' | 'o' => 'O' | 'p' => 'P' | 'q' => 'Q' | 'r' => 'R'
  | 's' => 'S' | 't' => 'T' | 'u' => 'U' | 'v' => 'V' | 'w' => 'W' | 'x' => 'X'
  | 'y' => 'Y' | 'z' => 'Z' | other => other

def jsToUpperCase (s : String) : String :=
  String.mk (s.data.map charUpper)

/-- guardBodyWithGetHead (core/utils/guards.ts): throws a ZephHttpError with
empty options when a body accompanies GET/HEAD. -/
def guardBodyWithGetHead (method : String) (body : Option Val) : Option Thrown :=
  if (["GET", "HEAD"].contains (jsToUpperCase method)) && jsNonNull body then
    some (mkZephHttpError
      ("A body is not allowed for " ++ jsToUpperCase method ++
       " requests. Per HTTP spec, GET/HEAD requests must not have a body.") {})
  else none

/-- warnDuplicateHeaders (core/utils/guards.ts): the duplicate keys reported
in the console warning; advisory only. -/
def warnDuplicateHeaders (defaultHeaders callHeaders : Option (List (String × Val))) : List String :=
  let dh := defaultHeaders.getD []
  let ch := callHeaders.getD []
  (ch.map Prod.fst).filter fun k => (dh.map Prod.fst).contains k

/-- JS object spread left-to-right: keys of the left record, overridden by
the right where present, then the right's new keys. -/
def recordSpread (a b : List (String × Val)) : List (String × Val) :=
  (a.map fun kv => match b.lookup kv.1 with | some v => (kv.1, v) | none => kv) ++
  b.filter fun kv => !(a.any fun kv2 => kv2.1 == kv.1)

/-- mergeHeaders (core/utils/headers.ts). -/
def mergeHeaders (defaultHeaders callHeaders : Option (List (String × Val))) : List (String × Val) :=
  recordSpread (defaultHeaders.getD []) (callHeaders.getD [])

/-- JS truthiness of a value. -/
def valTruthy : Val → Bool
  | .null => false
  | .str s => !s.isEmpty
  | .num n => n != 0
  | .bool b => b
  | .arr _ => true
  | .obj _ => true

def recordSet (l : List (String × Val)) (k : String) (v : Val) : List (String × Val) :=
  if l.any (fun kv => kv.1 == k) then l.map (fun kv => if kv.1 == k then (k, v) else kv)
  else l ++ [(k, v)]

/-- detectAndSetContentType (core/utils/headers.ts) for the modelled body
kinds: string bodies get text/plain, object bodies application/json;
FormData/Blob are browser types outside the model. -/
def detectAndSetContentType (headers : List (String × Val)) (body : Option Val) : List (String × Val) :=
  if !(valTruthy ((headers.lookup "Content-Type").getD .null)) && jsNonNull body then
    match body with
    | some (.str _) => recordSet headers "Content-Type" (.str "text/plain")
    | some (.obj _) => recordSet headers "Content-Type" (.str "application/json")
    | some (.arr _) => recordSet headers "Content-Type" (.str "application/json")
    | _ => headers
  else headers

/-- joinUrl (core/utils/url.ts): the regex replace removes one trailing
slash from the base. -/
def joinUrl (baseURL path : String) : String :=
  let root := if baseURL.data.getLast? = some '/' then String.mk baseURL.data.dropLast else baseURL
  let suffix := if path.data.head? = some '/' then path else "/" ++ path
  root ++ suffix

/-- String(v) for query param values; QueryParamValue arrays are flat, so
nested arrays do not occur after validation. -/
def jsScalarString : Val → String
  | .null => "null"
  | .str s => s
  | .num n => toString n
  | .bool b => cond b "true" "false"
  | .obj _ => "[object Object]"
  | .arr _ => ""

def jsValString : Val → String
  | .arr xs => String.intercalate "," (xs.map jsScalarString)
  | v => jsScalarString v

/-- appendQueryParams (core/utils/url.ts); URLSearchParams percent-encoding
is an external runtime detail not modelled. -/
def appendQueryParams (url : String) (params : Option (List (String × Val))) : String :=
  match params with
  | none => url
  | some ps =>
    let query := String.intercalate "&" (ps.map fun kv => kv.1 ++ "=" ++ jsValString kv.2)
    url ++ (if url.contains '?' then "&" else "?") ++ query

/-- The body handed to fetch: plain objects (typeof object, not
FormData/Blob) are JSON.stringify-ed (encoding external), anything else is
passed through; null/undefined bodies give no payload. -/
inductive Payload where
  | noBody
  | jsonStringified (v : Val)
  | rawBody (v : Val)

def buildPayload (body : Option Val) : Payload :=
  if jsNonNull body then
    match body with
    | some (.obj fs) => .jsonStringified (.obj fs)
    | some (.arr xs) => .jsonStringified (.arr xs)
    | some v => .rawBody v
    | none => .noBody
  else .noBody

/-- The arguments the pipeline computes for the fetch call. -/
structure FetchArgs where
  url : String
  method : String
  headers : List (String × Val)
  payload : Payload

/-- What the transport yields for one attempt: a response object, an abort
(an error named "AbortError"), or any other thrown error. -/
structure FetchResponse where
  status : Nat
  headers : List (String × String)
  json : Except JsErr Val
  textReread : Option String := none
  textData : String := ""
  blobData : Val := .null
  bufData : Val := .null

inductive FetchOutcome where
  | resp (r : FetchResponse)
  | abort
  | fail (e : JsErr)

/-- One attempt's externally-determined behaviour: the transport outcome,
plus the abort state of the per-attempt timeout signal and of the composite
signal as sampled by the catch block's classification. -/
structure AttemptBehavior where
  outcome : FetchOutcome := .fail (.typeError "Failed to fetch")
  timeoutSignalAborted : Bool := false
  combinedAborted : Bool := false

/-- Observable side effects of one request: transport calls, interceptor
invocations, the computed retry delays, and the client's tracked in-flight
controller set (controllers named by creation index). -/
structure Trace where
  calls : Nat := 0
  reqIntRuns : Nat := 0
  respIntRuns : Nat := 0
  delays : List Int := []
  active : List Nat := []
  nextCtrl : Nat := 0

/-- Set.add on the tracked-controller set. Every added controller is a
freshly constructed object, so by JS reference identity it is never already
a member and add always inserts. -/
def setAdd (l : List Nat) (x : Nat) : List Nat :=
  l ++ [x]

/-- Set.delete: remove the element. -/
def setDelete (l : List Nat) (x : Nat) : List Nat :=
  l.filter fun y => y != x

/-- combineAbortSignals (core/utils/combineAbortSignals.ts) at the level of
already-aborted observations: the composite is aborted iff some input is. -/
def combineAbortSignalsAborted (sigs : List Bool) : Bool :=
  sigs.any fun b => b

/-- Truthiness of finalConfig.timeoutMs; createTimeoutSignal returns no
signal for a zero/absent duration. -/
def timeoutTruthy : Option Int → Bool
  | some t => t != 0
  | none => false

/-- The catch block's AbortError rewriting: timeout-signal aborts become
ETIMEDOUT, composite aborts become ECANCELLED, anything else passes
through unchanged. -/
def classifyAbort (cfg : NormConfig) (b : AttemptBehavior) (err : Thrown) : Thrown :=
  if err.errName == "AbortError" then
    if timeoutTruthy cfg.timeoutMs && b.timeoutSignalAborted then
      mkZephHttpError ("Request timed out after " ++ toString (cfg.timeoutMs.getD 0) ++ " ms")
        { request := some (snapOfNorm cfg), cause := some err, code := some "ETIMEDOUT" }
    else if b.combinedAborted then
      mkZephHttpError "Request was cancelled by the user."
        { request := some (snapOfNorm cfg), cause := some err, code := some "ECANCELLED" }
    else err
  else err

/-- The no-retry test for 4xx: err instanceof ZephHttpError, err.status
truthy, and 400 ≤ status < 500. -/
def status4xxCheck (err : Thrown) : Bool :=
  err.isZephHttpError &&
    (match err.status with
     | some s => (s != 0) && decide (400 ≤ s) && decide (s < 500)
     | none => false)

/-- Body decoding per responseType (json is the default); a json decode
failure re-reads the body as text best-effort and throws EJSONPARSE with
the raw text as data and the decode error as cause. resHeaders is still
empty at that point. -/
def decodeBody (cfg : NormConfig) (r : FetchResponse) : Except Thrown Val :=
  match cfg.responseType with
  | some .text => .ok (.str r.textData)
  | some .blob => .ok r.blobData
  | some .arrayBuffer => .ok r.bufData
  | _ =>
    match r.json with
    | .ok v => .ok v
    | .error jsonErr =>
        .error (mkZephHttpError "Failed to parse JSON response"
          { status := some r.status, headers := some [], request := some (snapOfNorm cfg)
          , data := r.textReread.map ErrData.text, cause := some (.js jsonErr)
          , code := some "EJSONPARSE" })

/-- Optional zod validation of the response: on failure EZODRESPONSE with
the issues as data and the response status/headers; on success the parsed
data replaces the envelope's data. -/
def applySchema (schema : Option SchemaFn) (r : FetchResponse) (cfg : NormConfig)
    (response : ZephResponse) : Except Thrown ZephResponse :=
  match schema with
  | none => .ok response
  | some sf =>
    match sf response.data with
    | .success d => .ok { response with data := d }
    | .failure issues =>
        .error (mkZephHttpError "Response validation failed"
          { status := some r.status, headers := some r.headers
          , request := some (snapOfNorm cfg), data := some (.issues issues)
          , code := some "EZODRESPONSE" })

/-- The response success-interceptor chain, sequential, wrapping a throw at
index i with stage response; returns the result and the number of handlers
invoked. -/
def applyRespInterceptors : List RespInterceptor → Nat → ZephResponse → Nat →
    Except Thrown ZephResponse × Nat
  | [], _, response, runs => (.ok response, runs)
  | f :: rest, i, response, runs =>
    match f response with
    | .ok r2 => applyRespInterceptors rest (i + 1) r2 (runs + 1)
    | .error e => (.error (wrapInterceptorError e .response i), runs + 1)

/-- The request interceptor chain, sequential, wrapping a throw at index i
with stage request; returns the result and the number of handlers invoked. -/
def applyReqInterceptors : List ReqInterceptor → Nat → NormConfig → Nat →
    Except Thrown NormConfig × Nat
  | [], _, cfg, runs => (.ok cfg, runs)
  | f :: rest, i, cfg, runs =>
    match f cfg with
    | .ok c2 => applyReqInterceptors rest (i + 1) c2 (runs + 1)
    | .error e => (.error (wrapInterceptorError e .request i), runs + 1)

/-- The try block of one attempt after fetch returned a response: decode,
build resHeaders, res.ok check (status in 200..299), optional schema
validation, response interceptors. -/
def tryBody (cfg : NormConfig) (schema : Option SchemaFn) (respInts : List RespInterceptor)
    (r : FetchResponse) : Except Thrown ZephResponse × Nat :=
  match decodeBody cfg r with
  | .error e => (.error e, 0)
  | .ok v =>
    let resHeaders := r.headers
    if !(decide (200 ≤ r.status) && decide (r.status ≤ 299)) then
      (.error (mkZephHttpError "HTTP Error"
        { status := some r.status, data := some (.val v), headers := some resHeaders
        , request := some (snapOfNorm cfg), code := some "EHTTP" }), 0)
    else
      let response : ZephResponse := { data := v, status := r.status, headers := resHeaders }
      match applySchema schema r cfg response with
      | .error e => (.error e, 0)
      | .ok response => applyRespInterceptors respInts 0 response 0

/-- Whether one loop iteration settles the request or continues with the
next attempt after the computed delay. -/
inductive StepResult where
  | settled (r : Except Thrown ZephResponse) (st : Trace)
  | retryNext (err : Thrown) (st : Trace)

/-- One iteration of the retry loop (the while body): create and track a
fresh per-attempt controller, fail fast with ECANCELLED when the composite
is already aborted (the fresh timeout and internal signals are unaborted, so
that is the caller's signal), perform the transport call, and on a thrown
error run the catch block: delete the controller, classify aborts, rethrow
ECANCELLED and 4xx immediately, otherwise retry after the computed delay
while attempts remain. -/
def attemptOnce (cfg : NormConfig) (schema : Option SchemaFn)
    (respInts : List RespInterceptor) (fargs : FetchArgs) (b : AttemptBehavior)
    (attempt maxRetries : Nat) (retryDelay : Option RetryDelay) (st : Trace) : StepResult :=
  let ctrlId := st.nextCtrl
  let st1 : Trace := { st with active := setAdd st.active ctrlId, nextCtrl := st.nextCtrl + 1 }
  let userAborted := match cfg.signal with | some s => s attempt | none => false
  if combineAbortSignalsAborted [userAborted, false, false] then
    .settled (.error (mkZephHttpError "Request was cancelled by the user."
      { request := some (snapOfNorm cfg), code := some "ECANCELLED" }))
      { st1 with active := setDelete st1.active ctrlId }
  else
    let st2 : Trace := { st1 with calls := st1.calls + 1 }
    let tried : Except Thrown ZephResponse × Trace :=
      match b.outcome with
      | .resp r =>
        let stR : Trace := { st2 with active := setDelete st2.active ctrlId }
        match tryBody cfg schema respInts r with
        | (res, runs) => (res, { stR with respIntRuns := stR.respIntRuns + runs })
      | .abort => (.error (.js .abortError), st2)
      | .fail e => (.error (.js e), st2)
    match tried with
    | (.ok response, st3) => .settled (.ok response) st3
    | (.error err0, st3) =>
      let st4 : Trace := { st3 with active := setDelete st3.active ctrlId }
      let err := classifyAbort cfg b err0
      if err.code = some "ECANCELLED" then .settled (.error err) st4
      else if status4xxCheck err then .settled (.error err) st4
      else if attempt < maxRetries then
        .retryNext err { st4 with delays := st4.delays ++ [computeDelay retryDelay (attempt + 1) err] }
      else .settled (.error err) st4

/-- The retry loop (while attempt <= maxRetries) of request, driving
attemptOnce. fuel is maxRetries + 1 - attempt, so the fuel-exhausted case is
the unreachable throw of lastError after the loop. -/
def attemptLoop (cfg : NormConfig) (schema : Option SchemaFn)
    (respInts : List RespInterceptor) (env : Nat → AttemptBehavior) (fargs : FetchArgs)
    (maxRetries : Nat) (retryDelay : Option RetryDelay) :
    Nat → Nat → Option Thrown → Trace → Except Thrown ZephResponse × Trace
  | 0, _, lastError, st => (.error (lastError.getD (.js (.generic "undefined"))), st)
  | fuel + 1, attempt, _, st =>
    match attemptOnce cfg schema respInts fargs (env attempt) attempt maxRetries retryDelay st with
    | .settled r st2 => (r, st2)
    | .retryNext err st2 =>
        attemptLoop cfg schema respInts env fargs maxRetries retryDelay fuel (attempt + 1)
          (some err) st2

/-- request (createZephClient): zod validation (EVALIDATION short-circuit),
defaults merge, request interceptor chain, misuse guards, URL and header
construction, payload, the outer controller registration (added to the
tracked set before the retry loop and never removed), then the retry loop.
Lifecycle hooks are fire-and-forget with swallowed exceptions and are not
modelled. -/
def request (defaultConfig : ClientConfig) (interceptors : Interceptors)
    (config : RawConfig) (env : Nat → AttemptBehavior) : Except Thrown ZephResponse × Trace :=
  let st : Trace := {}
  match safeParse config with
  | .error issues =>
    (.error (mkZephHttpError (formatZodIssues issues)
      { request := some (snapOfRaw config), data := some (.issues issues)
      , code := some "EVALIDATION" }), st)
  | .ok parsed =>
    let finalConfig0 : NormConfig :=
      { baseURL := config.baseURL <|> defaultConfig.baseURL
      , path := parsed.path
      , method := parsed.method <|> defaultConfig.method
      , headers := recordSpread (defaultConfig.headers.getD []) (config.headers.getD [])
      , params := config.params <|> defaultConfig.params
      , body := config.body <|> defaultConfig.body
      , timeoutMs := parsed.timeoutMs <|> defaultConfig.timeoutMs
      , signal := config.signal
      , retry := config.retry <|> defaultConfig.retry
      , retryDelay := config.retryDelay <|> defaultConfig.retryDelay
      , responseType := parsed.responseType <|> defaultConfig.responseType
      , responseSchema := config.responseSchema }
    match applyReqInterceptors interceptors.request 0 finalConfig0 0 with
    | (.error e, runs) => (.error e, { st with reqIntRuns := runs })
    | (.ok finalConfig, runs) =>
      let st : Trace := { st with reqIntRuns := runs }
      let method := finalConfig.method.getD "GET"
      let callHeaders := finalConfig.headers
      match guardBodyWithGetHead method finalConfig.body with
      | some e => (.error e, st)
      | none =>
        let _ := warnDuplicateHeaders defaultConfig.headers (some callHeaders)
        let url := appendQueryParams (joinUrl (finalConfig.baseURL.getD "") finalConfig.path)
          finalConfig.params
        let headers := detectAndSetContentType
          (mergeHeaders defaultConfig.headers (some callHeaders)) finalConfig.body
        let payload := buildPayload finalConfig.body
        let fargs : FetchArgs := { url, method, headers, payload }
        let outerId := st.nextCtrl
        let st : Trace := { st with active := setAdd st.active outerId, nextCtrl := st.nextCtrl + 1 }
        let maxRetries := finalConfig.retry.getD 0
        attemptLoop finalConfig config.responseSchema interceptors.response env fargs
          maxRetries finalConfig.retryDelay (maxRetries + 1) 0 none st

/-- request.withCancel's merged config: a fresh internal controller's signal
is written over the config's signal field. The fresh controller itself is an
external event source, so its signal is an input. -/
def withCancel (controllerSignal : Signal) (config : RawConfig) : RawConfig :=
  { config with signal := some controllerSignal }

/-- cancelAll: aborts every tracked controller and clears the set; returns
the aborted controllers and the new (empty) set. -/
def cancelAll (activeControllers : List Nat) : List Nat × List Nat :=
  (activeControllers, [])

/-! Concrete scenarios used by the theorems. -/

/-- A client with no interceptors registered. -/
def noInts : Interceptors := {}

/-- An environment whose transport throws a network TypeError on every
attempt. -/
def envNetFail : Nat → AttemptBehavior :=
  fun _ => { outcome := .fail (.typeError "Failed to fetch") }

/-- An environment whose transport returns 200 with JSON body null. -/
def envOk : Nat → AttemptBehavior :=
  fun _ => { outcome := .resp { status := 200, headers := [], json := .ok .null } }

/-- A signal that is already aborted whenever sampled. -/
def sigOn : Signal := fun _ => true

/-- A signal that never aborts. -/
def sigOff : Signal := fun _ => false

/-! Accessors on a settled result, used to state the claims. They return the
corresponding field of the thrown error, and none on a successful result. -/

def errCode : Except Thrown ZephResponse → Option String
  | .error e => e.code
  | .ok _ => none

def errStatus : Except Thrown ZephResponse → Option Nat
  | .error e => e.status
  | .ok _ => none

def errData : Except Thrown ZephResponse → Option ErrData
  | .error e => e.data
  | .ok _ => none

def errHeaders : Except Thrown ZephResponse → Option (List (String × String))
  | .error e => e.headers
  | .ok _ => none

def errCause : Except Thrown ZephResponse → Option Thrown
  | .error e => e.cause
  | .ok _ => none

/-! Helper lemmas about the tracked-controller set: deleting a controller id
newer than everything in the set is a no-op, and deleting the just-added id
restores the set. -/

lemma setDelete_fresh (l : List Nat) (x : Nat) (hx : ∀ y ∈ l, y < x) :
    setDelete l x = l := by
  unfold setDelete
  refine List.filter_eq_self.mpr fun a ha => ?_
  have := hx a ha
  simp only [bne_iff_ne, ne_eq]
  omega

lemma setDelete_setAdd (l : List Nat) (x : Nat) (hx : ∀ y ∈ l, y < x) :
    setDelete (setAdd l x) x = l := by
  unfold setAdd setDelete
  rw [List.filter_append]
  have h1 : l.filter (fun y => y != x) = l := by
    refine List.filter_eq_self.mpr fun a ha => ?_
    have := hx a ha
    simp only [bne_iff_ne, ne_eq]
    omega
  simp [h1]

/-! The always-500 transport scenario for the retry-exhaustion claim. -/

/-- A transport attempt that returns HTTP 500 with JSON body null. -/
def b500 : AttemptBehavior :=
  { outcome := .resp { status := 500, headers := [], json := .ok .null } }

/-- A request with retry count N and retry-delay policy d. -/
def cfgC2 (N : Nat) (d : Option RetryDelay) : RawConfig :=
  { path := some (.str "/r"), retry := some N, retryDelay := d }

/-- Its normalized form under empty client defaults. -/
def finalC2 (N : Nat) (d : Option RetryDelay) : NormConfig :=
  { path := "/r", retry := some N, retryDelay := d }

/-- The classified error of each 500 attempt. -/
def e500 (N : Nat) (d : Option RetryDelay) : Thrown :=
  mkZephHttpError "HTTP Error"
    { status := some 500, data := some (.val .null), headers := some []
    , request := some (snapOfNorm (finalC2 N d)), code := some "EHTTP" }

lemma attemptOnce_b500 (N : Nat) (d : Option RetryDelay) (fargs : FetchArgs)
    (attempt : Nat) (st : Trace) (hfresh : ∀ x ∈ st.active, x < st.nextCtrl) :
    attemptOnce (finalC2 N d) none [] fargs b500 attempt N d st =
      if attempt < N then
        .retryNext (e500 N d)
          { st with
            calls := st.calls + 1
            nextCtrl := st.nextCtrl + 1
            delays := st.delays ++ [computeDelay d (attempt + 1) (e500 N d)] }
      else
        .settled (.error (e500 N d))
          { st with calls := st.calls + 1, nextCtrl := st.nextCtrl + 1 } := by
  have h1 : setDelete (setAdd st.active st.nextCtrl) st.nextCtrl = st.active :=
    setDelete_setAdd _ _ hfresh
  have h2 : setDelete st.active st.nextCtrl = st.active :=
    setDelete_fresh _ _ hfresh
  simp [attemptOnce, b500, finalC2, e500, tryBody, decodeBody, applySchema,
    applyRespInterceptors, classifyAbort, status4xxCheck, combineAbortSignalsAborted,
    mkZephHttpError, Thrown.code, Thrown.errName, Thrown.status, Thrown.isZephHttpError,
    computeDelay, h1, h2]

lemma delays_cons (c : Nat → Int) (attempt k : Nat) :
    [c (attempt + 1)] ++ (List.range k).map (fun j => c (attempt + 1 + j + 1)) =
    (List.range (k + 1)).map fun j => c (attempt + j + 1) := by
  rw [List.range_succ_eq_map, List.map_cons, List.map_map, List.singleton_append]
  congr 1
  refine List.map_congr_left fun j _ => ?_
  simp only [Function.comp_apply]
  congr 1
  omega

lemma attemptLoop_b500 (N : Nat) (d : Option RetryDelay) (fargs : FetchArgs) :
    ∀ (fuel attempt : Nat) (last : Option Thrown) (st : Trace),
      1 ≤ fuel → fuel + attempt = N + 1 → (∀ x ∈ st.active, x < st.nextCtrl) →
      attemptLoop (finalC2 N d) none [] (fun _ => b500) fargs N d fuel attempt last st =
        (.error (e500 N d),
         { st with
           calls := st.calls + fuel
           nextCtrl := st.nextCtrl + fuel
           delays := st.delays ++
             ((List.range (fuel - 1)).map fun j => computeDelay d (attempt + j + 1) (e500 N d)) }) := by
  intro fuel
  induction fuel with
  | zero => intro attempt last st h1 _ _; omega
  | succ f ih =>
    intro attempt last st _ hsum hfresh
    rw [attemptLoop, attemptOnce_b500 N d fargs attempt st hfresh]
    by_cases hlt : attempt < N
    · rw [if_pos hlt]
      have hf : 1 ≤ f := by omega
      have hsum2 : f + (attempt + 1) = N + 1 := by omega
      have hfresh2 : ∀ x ∈ st.active, x < st.nextCtrl + 1 :=
        fun x hx => Nat.lt_succ_of_lt (hfresh x hx)
      dsimp only
      rw [ih (attempt + 1) (some (e500 N d)) _ hf hsum2 hfresh2]
      obtain ⟨k, hk⟩ := Nat.exists_eq_add_of_le hf
      subst hk
      have e3 : (1 : Nat) + k - 1 = k := by omega
      have e4 : (1 : Nat) + k + 1 - 1 = k + 1 := by omega
      rw [e3, e4]
      have hcalls : st.calls + 1 + (1 + k) = st.calls + (1 + k + 1) := by omega
      have hctrl : st.nextCtrl + 1 + (1 + k) = st.nextCtrl + (1 + k + 1) := by omega
      have hdel : (st.delays ++ [computeDelay d (attempt + 1) (e500 N d)]) ++
          List.map (fun j => computeDelay d (attempt + 1 + j + 1) (e500 N d)) (List.range k) =
          st.delays ++ List.map (fun j => computeDelay d (attempt + j + 1) (e500 N d))
            (List.range (k + 1)) := by
        rw [List.append_assoc]
        congr 1
        exact delays_cons (fun j => computeDelay d j (e500 N d)) attempt k
      dsimp only
      rw [hcalls, hctrl, hdel]
    · rw [if_neg hlt]
      have ha : attempt = N := by omega
      have hf0 : f = 0 := by omega
      subst ha hf0
      simp

/-- When one iteration settles, the loop returns its result. -/
lemma attemptLoop_settled {cfg : NormConfig} {schema : Option SchemaFn}
    {respInts : List RespInterceptor} {env : Nat → AttemptBehavior} {fargs : FetchArgs}
    {maxR : Nat} {d : Option RetryDelay} {fuel attempt : Nat} {last : Option Thrown}
    {st : Trace} {r : Except Thrown ZephResponse} {st2 : Trace}
    (h : attemptOnce cfg schema respInts fargs (env attempt) attempt maxR d st = .settled r st2) :
    attemptLoop cfg schema respInts env fargs maxR d (fuel + 1) attempt last st = (r, st2) := by
  rw [attemptLoop, h]

/-! The claims. -/

/-- A request for path /data with nothing else configured. -/
def cfgC1 : RawConfig := { path := some (.str "/data") }

/-- Claim C1: the claim says every failure thrown by request() is exactly
one ErrorEnvelope and that a non-abort transport error is classified
ENETWORK with the cause attached. On the code this fails: with retry 0 and
a transport throwing a TypeError, request() rethrows the raw TypeError —
not a ZephHttpError, with no code — after a single transport call. -/
theorem c1_raw_transport_error_escapes :
    (request {} noInts cfgC1 envNetFail).1 = .error (.js (.typeError "Failed to fetch")) ∧
    Thrown.isZephHttpError (.js (.typeError "Failed to fetch")) = false ∧
    errCode (request {} noInts cfgC1 envNetFail).1 = none ∧
    (request {} noInts cfgC1 envNetFail).2.calls = 1 :=
  ⟨rfl, rfl, rfl, rfl⟩

/-- Claim C2: with retry count N and a transport that always fails with a
500-class response, request() performs exactly N + 1 transport calls, the
delay before each retry is the computed one (0 without a retry-delay, the
fixed duration, or the user function applied to the 1-based next-attempt
number and the error), and the last classified error is thrown. -/
theorem c2_retry_exhaustion_attempts_delays (N : Nat) (d : Option RetryDelay)
    (env : Nat → AttemptBehavior) (henv : env = fun _ => b500) :
    (request {} noInts (cfgC2 N d) env).1 = .error (e500 N d) ∧
    (request {} noInts (cfgC2 N d) env).2.calls = N + 1 ∧
    (request {} noInts (cfgC2 N d) env).2.delays =
      (List.range N).map fun k => computeDelay d (k + 1) (e500 N d) := by
  subst henv
  have hr : request {} noInts (cfgC2 N d) (fun _ => b500) =
      attemptLoop (finalC2 N d) none [] (fun _ => b500)
        { url := "/r", method := "GET", headers := [], payload := .noBody } N d (N + 1) 0 none
        { active := [0], nextCtrl := 1 } := by
    cases d <;> rfl
  have hloop := attemptLoop_b500 N d
    { url := "/r", method := "GET", headers := [], payload := .noBody } (N + 1) 0 none
    { active := [0], nextCtrl := 1 } (by omega) (by omega)
    (by intro x hx; have h := List.mem_singleton.mp hx; subst h; exact Nat.one_pos)
  rw [hr, hloop]
  refine ⟨rfl, by simp, ?_⟩
  simp

theorem c2_witness :
    (request {} noInts (cfgC2 2 (some (.fixed 300))) (fun _ => b500)).1 =
      .error (e500 2 (some (.fixed 300))) ∧
    (request {} noInts (cfgC2 2 (some (.fixed 300))) (fun _ => b500)).2.calls = 2 + 1 ∧
    (request {} noInts (cfgC2 2 (some (.fixed 300))) (fun _ => b500)).2.delays =
      (List.range 2).map fun k =>
        computeDelay (some (.fixed 300)) (k + 1) (e500 2 (some (.fixed 300))) :=
  c2_retry_exhaustion_attempts_delays 2 (some (.fixed 300)) _ rfl

/-- A request for path /r with retry count N. -/
def cfgC3 (N : Nat) : RawConfig := { path := some (.str "/r"), retry := some N }

/-- The same request with an already-aborted caller signal. -/
def cfgC3sig (N : Nat) : RawConfig :=
  { path := some (.str "/r"), retry := some N, signal := some sigOn }

/-- Its normalized form under empty client defaults. -/
def finalC3 (N : Nat) : NormConfig := { path := "/r", retry := some N }

/-- Claim C3: a failure with a status in 400..499 is never retried (a 4xx
response yields exactly one transport call and an EHTTP error with that
status, whatever the retry count); an ECANCELLED failure is never retried
(an abort with the composite signal fired settles ECANCELLED after the one
call); and when the composite signal is already triggered before a
transport call is issued, the attempt fails ECANCELLED with zero transport
calls. -/
theorem c3_no_retry_4xx_cancelled_precheck (N stc : Nat) (v : Val)
    (hs : List (String × String)) (env : Nat → AttemptBehavior)
    (h4a : 400 ≤ stc) (h4b : stc < 500) :
    ((env = fun _ => { outcome := .resp { status := stc, headers := hs, json := .ok v } }) →
      errCode (request {} noInts (cfgC3 N) env).1 = some "EHTTP" ∧
      errStatus (request {} noInts (cfgC3 N) env).1 = some stc ∧
      (request {} noInts (cfgC3 N) env).2.calls = 1) ∧
    (errCode (request {} noInts (cfgC3sig N) env).1 = some "ECANCELLED" ∧
      (request {} noInts (cfgC3sig N) env).2.calls = 0) ∧
    ((env = fun _ => { outcome := .abort, combinedAborted := true }) →
      errCode (request {} noInts (cfgC3 N) env).1 = some "ECANCELLED" ∧
      (request {} noInts (cfgC3 N) env).2.calls = 1) := by
  refine ⟨?_, ⟨rfl, rfl⟩, ?_⟩
  · intro henv
    subst henv
    have h0 : (stc != 0) = true := bne_iff_ne.mpr (by omega)
    have hd1 : decide (400 ≤ stc) = true := decide_eq_true h4a
    have hd2 : decide (stc < 500) = true := decide_eq_true h4b
    have hd3 : decide (200 ≤ stc) = true := decide_eq_true (by omega)
    have hd4 : decide (stc ≤ 299) = false := decide_eq_false (by omega)
    have hstep : attemptOnce (finalC3 N) none []
        { url := "/r", method := "GET", headers := [], payload := .noBody }
        { outcome := .resp { status := stc, headers := hs, json := .ok v } } 0 N none
        { active := [0], nextCtrl := 1 } =
        .settled (.error (mkZephHttpError "HTTP Error"
          { status := some stc, data := some (.val v), headers := some hs
          , request := some (snapOfNorm (finalC3 N)), code := some "EHTTP" }))
          { calls := 1, active := [0], nextCtrl := 2 } := by
      simp [attemptOnce, finalC3, tryBody, decodeBody, applySchema, applyRespInterceptors,
        classifyAbort, status4xxCheck, combineAbortSignalsAborted, mkZephHttpError,
        Thrown.code, Thrown.errName, Thrown.status, Thrown.isZephHttpError,
        setAdd, setDelete, h0, hd1, hd2, hd3, hd4]
    have hfin : request {} noInts (cfgC3 N)
        (fun _ => { outcome := .resp { status := stc, headers := hs, json := .ok v } }) =
        (.error (mkZephHttpError "HTTP Error"
          { status := some stc, data := some (.val v), headers := some hs
          , request := some (snapOfNorm (finalC3 N)), code := some "EHTTP" }),
         { calls := 1, active := [0], nextCtrl := 2 }) := by
      rw [show request {} noInts (cfgC3 N)
          (fun _ => { outcome := .resp { status := stc, headers := hs, json := .ok v } }) =
          attemptLoop (finalC3 N) none []
            (fun _ => { outcome := .resp { status := stc, headers := hs, json := .ok v } })
            { url := "/r", method := "GET", headers := [], payload := .noBody } N none (N + 1) 0
            none { active := [0], nextCtrl := 1 } from rfl]
      exact attemptLoop_settled hstep
    rw [hfin]
    exact ⟨rfl, rfl, rfl⟩
  · intro henv
    subst henv
    exact ⟨rfl, rfl⟩

theorem c3_witness :
    (errCode (request {} noInts (cfgC3 3)
        (fun _ => { outcome := .resp { status := 404, headers := [], json := .ok .null } })).1 =
        some "EHTTP" ∧
      errStatus (request {} noInts (cfgC3 3)
        (fun _ => { outcome := .resp { status := 404, headers := [], json := .ok .null } })).1 =
        some 404 ∧
      (request {} noInts (cfgC3 3)
        (fun _ => { outcome := .resp { status := 404, headers := [], json := .ok .null } })).2.calls = 1) ∧
    (errCode (request {} noInts (cfgC3sig 3)
        (fun _ => { outcome := .resp { status := 404, headers := [], json := .ok .null } })).1 =
        some "ECANCELLED" ∧
      (request {} noInts (cfgC3sig 3)
        (fun _ => { outcome := .resp { status := 404, headers := [], json := .ok .null } })).2.calls = 0) ∧
    (errCode (request {} noInts (cfgC3 3)
        (fun _ => { outcome := .abort, combinedAborted := true })).1 = some "ECANCELLED" ∧
      (request {} noInts (cfgC3 3)
        (fun _ => { outcome := .abort, combinedAborted := true })).2.calls = 1) :=
  ⟨(c3_no_retry_4xx_cancelled_precheck 3 404 .null [] _ (by decide) (by decide)).1 rfl,
   (c3_no_retry_4xx_cancelled_precheck 3 404 .null [] _ (by decide) (by decide)).2.1,
   (c3_no_retry_4xx_cancelled_precheck 3 404 .null [] _ (by decide) (by decide)).2.2 rfl⟩

/-- Claim C4: whenever the structural validation of the request description
fails, request() rejects with code EVALIDATION carrying all the violation
details as data (and the raw config attached), performs zero transport
calls and runs zero interceptors — the returned trace is the initial one. -/
theorem c4_validation_short_circuit (defaults : ClientConfig) (ints : Interceptors)
    (cfg : RawConfig) (issues : List Issue) (env : Nat → AttemptBehavior)
    (h : safeParse cfg = .error issues) :
    request defaults ints cfg env =
      (.error (mkZephHttpError (formatZodIssues issues)
        { request := some (snapOfRaw cfg), data := some (.issues issues)
        , code := some "EVALIDATION" }), ({} : Trace)) := by
  unfold request
  rw [h]

/-- The zod issue produced by a request description missing its path. -/
def issueNoPath : Issue :=
  { path := ["path"], message := pathMessage, code := "invalid_type", expected := some "string" }

theorem c4_witness :
    safeParse {} = .error [issueNoPath] ∧
    request {} noInts {} envNetFail =
      (.error (mkZephHttpError (formatZodIssues [issueNoPath])
        { request := some (snapOfRaw {}), data := some (.issues [issueNoPath])
        , code := some "EVALIDATION" }), ({} : Trace)) :=
  ⟨rfl, c4_validation_short_circuit {} noInts {} _ envNetFail rfl⟩

/-- The two request interceptors of the C5 scenario: the first sets a
header, the second throws a plain Error. -/
def intsC5 : Interceptors :=
  { request := [fun c => .ok { c with headers := recordSet c.headers "X-Test" (.str "1") },
                fun _ => .error (.js (.generic "boom"))] }

/-- A request for path /users with nothing else configured. -/
def cfgC5 : RawConfig := { path := some (.str "/users") }

/-- Claim C5: the claim says a throw in the request interceptor at index i
yields an ErrorEnvelope with code EINTERCEPTOR whose attached request
description shows the mutations of the earlier interceptors. On the code
this fails: the wrapped error is annotated stage request / index 1, no
transport call occurs and no later interceptor runs, but its code is
undefined (not EINTERCEPTOR) and no request description is attached at all
(the fifth constructor field below), so the first interceptor's header
mutation is not visible on the error. -/
theorem c5_interceptor_error_missing_code_and_request :
    (request {} intsC5 cfgC5 envNetFail).1 =
      .error (.zeph "[request interceptor #1] boom" none none none none
        (some (.js (.generic "boom"))) (some .request) (some 1) none) ∧
    (request {} intsC5 cfgC5 envNetFail).2.calls = 0 ∧
    (request {} intsC5 cfgC5 envNetFail).2.reqIntRuns = 2 :=
  ⟨rfl, rfl, rfl⟩

/-- A request for path /s carrying a response-validation capability. -/
def cfgC6 (sf : SchemaFn) : RawConfig :=
  { path := some (.str "/s"), responseSchema := some sf }

/-- Its normalized form under empty client defaults. -/
def finalC6 (sf : SchemaFn) : NormConfig :=
  { path := "/s", responseSchema := some sf }

/-- Claim C6: with a response-validation capability configured, validation
success replaces the envelope's data with the validator's output, so the
registered response interceptor (and through it the caller) receives the
validated value and not the raw decoded body; validation failure produces
EZODRESPONSE carrying the validation issues as data together with the
response status and headers. -/
theorem c6_response_schema_validation (v v2 : Val) (stc : Nat)
    (hs : List (String × String)) (sf : SchemaFn) (issues : List Issue)
    (g : RespInterceptor) (out : ZephResponse) (env : Nat → AttemptBehavior)
    (h2a : 200 ≤ stc) (h2b : stc ≤ 299)
    (henv : env = fun _ => { outcome := .resp { status := stc, headers := hs, json := .ok v } }) :
    (sf v = .success v2 → g { data := v2, status := stc, headers := hs } = .ok out →
      (request {} { request := [], response := [g] } (cfgC6 sf) env).1 = .ok out) ∧
    (sf v = .failure issues →
      errCode (request {} { request := [], response := [g] } (cfgC6 sf) env).1 =
        some "EZODRESPONSE" ∧
      errData (request {} { request := [], response := [g] } (cfgC6 sf) env).1 =
        some (.issues issues) ∧
      errStatus (request {} { request := [], response := [g] } (cfgC6 sf) env).1 = some stc ∧
      errHeaders (request {} { request := [], response := [g] } (cfgC6 sf) env).1 = some hs) := by
  subst henv
  have hd3 : decide (200 ≤ stc) = true := decide_eq_true h2a
  have hd4 : decide (stc ≤ 299) = true := decide_eq_true h2b
  have hd5 : decide (400 ≤ stc) = false := decide_eq_false (by omega)
  have hshow : request {} { request := [], response := [g] } (cfgC6 sf)
      (fun _ => { outcome := .resp { status := stc, headers := hs, json := .ok v } }) =
      attemptLoop (finalC6 sf) (some sf) [g]
        (fun _ => { outcome := .resp { status := stc, headers := hs, json := .ok v } })
        { url := "/s", method := "GET", headers := [], payload := .noBody } 0 none (0 + 1) 0
        none { active := [0], nextCtrl := 1 } := rfl
  constructor
  · intro hsf hg
    have hstep : attemptOnce (finalC6 sf) (some sf) [g]
        { url := "/s", method := "GET", headers := [], payload := .noBody }
        { outcome := .resp { status := stc, headers := hs, json := .ok v } } 0 0 none
        { active := [0], nextCtrl := 1 } =
        .settled (.ok out) { calls := 1, respIntRuns := 1, active := [0], nextCtrl := 2 } := by
      simp [attemptOnce, finalC6, tryBody, decodeBody, applySchema, applyRespInterceptors,
        classifyAbort, status4xxCheck, combineAbortSignalsAborted, mkZephHttpError,
        Thrown.code, Thrown.errName, Thrown.status, Thrown.isZephHttpError,
        setAdd, setDelete, hd3, hd4, hsf, hg]
    rw [hshow, attemptLoop_settled hstep]
  · intro hsf
    have hstep : attemptOnce (finalC6 sf) (some sf) [g]
        { url := "/s", method := "GET", headers := [], payload := .noBody }
        { outcome := .resp { status := stc, headers := hs, json := .ok v } } 0 0 none
        { active := [0], nextCtrl := 1 } =
        .settled (.error (mkZephHttpError "Response validation failed"
          { status := some stc, headers := some hs, request := some (snapOfNorm (finalC6 sf))
          , data := some (.issues issues), code := some "EZODRESPONSE" }))
          { calls := 1, active := [0], nextCtrl := 2 } := by
      simp [attemptOnce, finalC6, tryBody, decodeBody, applySchema, applyRespInterceptors,
        classifyAbort, status4xxCheck, combineAbortSignalsAborted, mkZephHttpError,
        Thrown.code, Thrown.errName, Thrown.status, Thrown.isZephHttpError,
        setAdd, setDelete, hd3, hd4, hd5, hsf]
    rw [hshow, attemptLoop_settled hstep]
    exact ⟨rfl, rfl, rfl, rfl⟩

/-- A validator that normalizes every value to the string norm. -/
def sfSuccess : SchemaFn := fun _ => .success (.str "norm")

/-- A validator that always fails with one issue. -/
def sfFailure : SchemaFn := fun _ => .failure [issueNoPath]

theorem c6_witness :
    (request {} { request := [], response := [fun r => .ok r] } (cfgC6 sfSuccess)
        (fun _ => { outcome := .resp { status := 200, headers := [], json := .ok .null } })).1 =
      .ok { data := .str "norm", status := 200, headers := [] } ∧
    errCode (request {} { request := [], response := [fun r => .ok r] } (cfgC6 sfFailure)
        (fun _ => { outcome := .resp { status := 200, headers := [], json := .ok .null } })).1 =
      some "EZODRESPONSE" :=
  ⟨(c6_response_schema_validation .null (.str "norm") 200 [] sfSuccess [issueNoPath]
      (fun r => .ok r) { data := .str "norm", status := 200, headers := [] } _
      (by decide) (by decide) rfl).1 rfl rfl,
   ((c6_response_schema_validation .null (.str "norm") 200 [] sfFailure [issueNoPath]
      (fun r => .ok r) { data := .str "norm", status := 200, headers := [] } _
      (by decide) (by decide) rfl).2 rfl).1⟩

/-- A GET request carrying a body. -/
def cfgC7 : RawConfig :=
  { path := some (.str "/x"), method := some (.str "GET"), body := some (.str "b") }

/-- Claim C7: the claim says a body on GET/HEAD rejects with code EMISUSE
before any transport call. On the code this fails: guardBodyWithGetHead does
throw synchronously with zero transport calls, but it constructs the
ZephHttpError with empty options, so the thrown error's code is undefined,
not EMISUSE (the package's ERROR-HANDLING.md documents EMISUSE for this
case). -/
theorem c7_get_head_body_guard_lacks_emisuse_code :
    (request {} noInts cfgC7 envNetFail).1 =
      .error (.zeph "A body is not allowed for GET requests. Per HTTP spec, GET/HEAD requests must not have a body."
        none none none none none none none none) ∧
    errCode (request {} noInts cfgC7 envNetFail).1 = none ∧
    (request {} noInts cfgC7 envNetFail).2.calls = 0 :=
  ⟨rfl, rfl, rfl⟩

/-- A request for path /x whose caller also supplies an (already fired)
cancellation signal. -/
def cfgC8 : RawConfig := { path := some (.str "/x"), signal := some sigOn }

/-- Claim C8 (counterexample): the claim says that under request.withCancel
both the wrapper's controller and the caller's configured signal contribute,
the firing of either one cancelling the request. Here the caller's signal
has already fired, yet since the wrapper's own signal has not, the request
sent through withCancel succeeds — the caller's signal was discarded, not
combined. -/
theorem c8_caller_signal_discarded :
    cfgC8.signal = some sigOn ∧ sigOn 0 = true ∧
    (withCancel sigOff cfgC8).signal = some sigOff ∧
    (request {} noInts (withCancel sigOff cfgC8) envOk).1 =
      .ok { data := .null, status := 200, headers := [] } :=
  ⟨rfl, rfl, rfl, rfl⟩

/-- Claim C8 (amended): request.withCancel overwrites the config's signal
with the wrapper's internal controller signal — the caller's configured
signal is discarded rather than combined — and the wrapper's own signal
does govern the request: once it has fired, the request settles ECANCELLED
with no transport call. -/
theorem c8_wrapper_replaces_caller_signal :
    (∀ (w : Signal) (cfg : RawConfig), (withCancel w cfg).signal = some w) ∧
    (∀ (env : Nat → AttemptBehavior),
      errCode (request {} noInts (withCancel sigOn { path := some (.str "/x") }) env).1 =
        some "ECANCELLED" ∧
      (request {} noInts (withCancel sigOn { path := some (.str "/x") }) env).2.calls = 0) :=
  ⟨fun _ _ => rfl, fun _ => ⟨rfl, rfl⟩⟩

/-- A plain request for path /x. -/
def cfgC9 : RawConfig := { path := some (.str "/x") }

/-- Claim C9: the claim says every controller added to the tracked set is
removed as soon as its attempt settles, so the set is empty after all
requests settle. On the code this fails: the controller registered before
the retry loop is never deleted, so after a fully successful request the
set still holds it (controller id 0 below). The per-attempt controller (id
1) was removed, and the bulk-cancel operation does clear whatever it is
handed. -/
theorem c9_outer_controller_never_removed :
    (request {} noInts cfgC9 envOk).1 = .ok { data := .null, status := 200, headers := [] } ∧
    (request {} noInts cfgC9 envOk).2.active = [0] ∧
    (cancelAll (request {} noInts cfgC9 envOk).2.active).2 = [] :=
  ⟨rfl, rfl, rfl⟩

/-- A request for path /api decoded under the default json response shape. -/
def cfgC10 : RawConfig := { path := some (.str "/api") }

/-- Its normalized form under empty client defaults. -/
def finalC10 : NormConfig := { path := "/api" }

/-- Claim C10: when the body fails JSON decoding under the json response
shape, the pipeline produces EJSONPARSE whose data is the best-effort
plain-text re-read of the body (absent exactly when that re-read fails) and
whose cause is the original decode error, after the one transport call. -/
theorem c10_jsonparse_best_effort_text (stc : Nat) (hs : List (String × String))
    (je : JsErr) (raw : Option String) (env : Nat → AttemptBehavior)
    (henv : env = fun _ =>
      { outcome := .resp { status := stc, headers := hs, json := .error je, textReread := raw } }) :
    errCode (request {} noInts cfgC10 env).1 = some "EJSONPARSE" ∧
    errData (request {} noInts cfgC10 env).1 = raw.map ErrData.text ∧
    errCause (request {} noInts cfgC10 env).1 = some (.js je) ∧
    errStatus (request {} noInts cfgC10 env).1 = some stc ∧
    (request {} noInts cfgC10 env).2.calls = 1 := by
  subst henv
  have hstep : attemptOnce finalC10 none []
      { url := "/api", method := "GET", headers := [], payload := .noBody }
      { outcome := .resp { status := stc, headers := hs, json := .error je, textReread := raw } }
      0 0 none { active := [0], nextCtrl := 1 } =
      .settled (.error (mkZephHttpError "Failed to parse JSON response"
        { status := some stc, headers := some [], request := some (snapOfNorm finalC10)
        , data := raw.map ErrData.text, cause := some (.js je), code := some "EJSONPARSE" }))
        { calls := 1, active := [0], nextCtrl := 2 } := by
    simp [attemptOnce, finalC10, tryBody, decodeBody, applySchema, applyRespInterceptors,
      classifyAbort, status4xxCheck, combineAbortSignalsAborted, mkZephHttpError,
      Thrown.code, Thrown.errName, Thrown.status, Thrown.isZephHttpError, setAdd, setDelete]
  rw [show request {} noInts cfgC10
      (fun _ => { outcome := .resp { status := stc, headers := hs, json := .error je, textReread := raw } }) =
      attemptLoop finalC10 none []
        (fun _ => { outcome := .resp { status := stc, headers := hs, json := .error je, textReread := raw } })
        { url := "/api", method := "GET", headers := [], payload := .noBody } 0 none (0 + 1) 0
        none { active := [0], nextCtrl := 1 } from rfl,
    attemptLoop_settled hstep]
  exact ⟨rfl, rfl, rfl, rfl, rfl⟩

theorem c10_witness :
    errCode (request {} noInts cfgC10
        (fun _ => { outcome := .resp { status := 200, headers := [], json := .error (.jsonSyntaxError "Unexpected token"), textReread := some "not json" } })).1 =
      some "EJSONPARSE" ∧
    errData (request {} noInts cfgC10
        (fun _ => { outcome := .resp { status := 200, headers := [], json := .error (.jsonSyntaxError "Unexpected token"), textReread := some "not json" } })).1 =
      (some "not json").map ErrData.text ∧
    errCause (request {} noInts cfgC10
        (fun _ => { outcome := .resp { status := 200, headers := [], json := .error (.jsonSyntaxError "Unexpected token"), textReread := some "not json" } })).1 =
      some (.js (.jsonSyntaxError "Unexpected token")) ∧
    errStatus (request {} noInts cfgC10
        (fun _ => { outcome := .resp { status := 200, headers := [], json := .error (.jsonSyntaxError "Unexpected token"), textReread := some "not json" } })).1 =
      some 200 ∧
    (request {} noInts cfgC10
        (fun _ => { outcome := .resp { status := 200, headers := [], json := .error (.jsonSyntaxError "Unexpected token"), textReread := some "not json" } })).2.calls = 1 :=
  c10_jsonparse_best_effort_text 200 [] (.jsonSyntaxError "Unexpected token") (some "not json")
    _ rfl

end Zeph
